import Mathlib

/-!
Verification development for BookScout (`app.py`), a multi-source book
discovery service.  The Python source is shallowly embedded: pure helpers
become Lean functions over `List Char` / `String`, the SQLite tables become
lists of row structures, and every fallible external call becomes an
`Except Unit` parameter whose `.error` case is the `try/except` branch of
the source.  Python truthiness of optional strings (`None` and `""` are
falsy) is modelled by `truthy`.  Floating point threshold comparisons
(`>= 0.75`, `>= 0.9`) are modelled by exact integer inequalities; for word
counts realisable in practice the float and rational comparisons coincide
(the thresholds sit far from every other representable ratio).
-/

namespace BookScout

/-! ### Python-style character and string primitives (ASCII scope) -/

/-- `str.lower` on one character (ASCII range, as produced by the APIs modelled here). -/
def lowerChar (c : Char) : Char :=
  if c.toNat ≥ 65 && c.toNat ≤ 90 then Char.ofNat (c.toNat + 32) else c

/-- `str.lower` over the characters of a string. -/
def lowerStr (l : List Char) : List Char := l.map lowerChar

/-- Python `\s` / `str.split()` whitespace (the ASCII whitespace characters). -/
def pyWs (c : Char) : Bool :=
  c == ' ' || c == '\t' || c == '\n' || c == '\r' || c == '\x0b' || c == '\x0c'

/-- `str.strip()`: drop whitespace from both ends. -/
def stripWs (l : List Char) : List Char :=
  ((l.dropWhile pyWs).reverse.dropWhile pyWs).reverse

/-- `str.strip()` packaged on `String`. -/
def pyStrip (s : String) : String := String.mk (stripWs s.toList)

/-- Is `a` a (contiguous) prefix of `b`?  (`List.isPrefixOf` restated with `==`.) -/
def prefB : List Char → List Char → Bool
  | [], _ => true
  | _ :: _, [] => false
  | a :: as, b :: bs => a == b && prefB as bs

/-- Python `a in b`: contiguous substring containment. -/
def substrB (a b : List Char) : Bool :=
  match b with
  | [] => a.isEmpty
  | _ :: bs => prefB a b || substrB a bs

/-- `str.split()` with no argument: split on whitespace runs, dropping empties. -/
def pySplitAux : List Char → List Char → List String
  | [], acc => if acc.isEmpty then [] else [String.mk acc.reverse]
  | c :: rest, acc =>
    if pyWs c then
      if acc.isEmpty then pySplitAux rest []
      else String.mk acc.reverse :: pySplitAux rest []
    else pySplitAux rest (c :: acc)

def pySplit (l : List Char) : List String := pySplitAux l []

/-- `str.replace(c, r)` for a one-character pattern. -/
def replaceChar (c : Char) (r : List Char) (l : List Char) : List Char :=
  (l.map (fun x => if x == c then r else [x])).flatten

/-- Deduplicate keeping first occurrences: the word lists model Python `set`s,
whose only observed operations are size and intersection size. -/
def dedupFirst (l : List String) : List String :=
  l.foldl (fun acc w => if acc.contains w then acc else acc ++ [w]) []

/-- `len(set(a) & set(b))` for word lists. -/
def overlapCount (a b : List String) : Nat :=
  (dedupFirst a).countP (fun w => b.contains w)

/-- Python truthiness of an optional string: `None` and `""` are falsy. -/
def truthy : Option String → Bool
  | none => false
  | some s => !s.isEmpty

/-! ### A small backtracking regex engine

Exactly the constructs used by the eight series patterns of
`extract_series_from_title`: character classes, sequencing, capture groups,
greedy `*`/`+` and lazy `+?` over single-character classes, greedy `?`, and
the `$` anchor (`^` is handled by anchoring the search at position 0).
Alternative orderings reproduce Python `re` preference: lazy tries the
shortest repetition first, greedy the longest, `?` tries to match first. -/

inductive RE where
  | eps : RE
  | cls (p : Char → Bool) : RE
  | seq (a b : RE) : RE
  | grp (i : Nat) (a : RE) : RE
  | starG (p : Char → Bool) : RE
  | plusG (p : Char → Bool) : RE
  | plusL (p : Char → Bool) : RE
  | opt (a : RE) : RE
  | eos : RE

/-- Result of a match attempt: the unconsumed suffix and the captured groups. -/
abbrev MRes := List Char × List (Nat × List Char)

/-- Length of the longest prefix of `s` whose characters satisfy `p`. -/
def classRun (p : Char → Bool) : List Char → Nat
  | [] => 0
  | c :: r => if p c then classRun p r + 1 else 0

/-- `[m, m-1, ..., 0]`: greedy `*` repetition counts in preference order. -/
def countsDown0 : Nat → List Nat
  | 0 => [0]
  | n + 1 => (n + 1) :: countsDown0 n

/-- `[m, m-1, ..., 1]`: greedy `+` repetition counts in preference order. -/
def countsDown1 : Nat → List Nat
  | 0 => []
  | n + 1 => (n + 1) :: countsDown1 n

/-- `[1, 2, ..., m]`: lazy `+?` repetition counts in preference order. -/
def countsUp1 (m : Nat) : List Nat := (countsDown1 m).reverse

/-- Try each repetition count in order, backtracking into the continuation. -/
def tryCounts (s : List Char) (g : List (Nat × List Char))
    (k : List Char → List (Nat × List Char) → Option MRes) : List Nat → Option MRes
  | [] => none
  | n :: ns =>
    match k (s.drop n) g with
    | some r => some r
    | none => tryCounts s g k ns

/-- The backtracking matcher, in continuation-passing style.  `reRun r s g k`
tries every way for `r` to consume a prefix of `s` (in Python `re` preference
order) and hands the suffix and accumulated groups to `k`. -/
def reRun : RE → List Char → List (Nat × List Char) →
    (List Char → List (Nat × List Char) → Option MRes) → Option MRes
  | .eps, s, g, k => k s g
  | .cls p, s, g, k =>
    match s with
    | [] => none
    | c :: rest => if p c then k rest g else none
  | .seq a b, s, g, k => reRun a s g fun s' g' => reRun b s' g' k
  | .grp i a, s, g, k =>
    reRun a s g fun s' g' => k s' ((i, s.take (s.length - s'.length)) :: g')
  | .starG p, s, g, k => tryCounts s g k (countsDown0 (classRun p s))
  | .plusG p, s, g, k => tryCounts s g k (countsDown1 (classRun p s))
  | .plusL p, s, g, k => tryCounts s g k (countsUp1 (classRun p s))
  | .opt a, s, g, k =>
    match reRun a s g k with
    | some r => some r
    | none => k s g
  | .eos, s, g, k => if s = [] || s = ['\n'] then k s g else none

/-- Attempt a match of `r` starting exactly at offset `i` of `s`;
returns `(start, stop, groups)` on success. -/
def searchFrom (r : RE) (s : List Char) (i : Nat) :
    Option (Nat × Nat × List (Nat × List Char)) :=
  match reRun r (s.drop i) [] (fun rest g => some (rest, g)) with
  | none => none
  | some (rest, g) => some (i, i + ((s.length - i) - rest.length), g)

def searchAux (r : RE) (s : List Char) : List Nat → Option (Nat × Nat × List (Nat × List Char))
  | [] => none
  | i :: is =>
    match searchFrom r s i with
    | some m => some m
    | none => searchAux r s is

/-- `re.search`: leftmost match.  A pattern beginning with `^` (no MULTILINE)
can only match at offset 0, so `anchored` patterns try that offset alone. -/
def reSearch (r : RE) (anchored : Bool) (s : List Char) :
    Option (Nat × Nat × List (Nat × List Char)) :=
  searchAux r s (if anchored then [0] else List.range (s.length + 1))

/-- `re.sub(pattern, '', s)`: delete every non-overlapping match, scanning
left to right and resuming after each match.  All eight patterns consume at
least one character, so `fuel = length + 1` never runs out; an anchored
pattern can only ever match once (at absolute offset 0). -/
def reSubAll (r : RE) (anchored : Bool) : Nat → List Char → List Char
  | 0, s => s
  | fuel + 1, s =>
    match reSearch r anchored s with
    | none => s
    | some (st, sp, _) =>
      if anchored then s.take st ++ s.drop sp
      else s.take st ++ reSubAll r anchored fuel (s.drop sp)

/-- Extract a capture group's text (`""` when absent). -/
def getGroup (g : List (Nat × List Char)) (i : Nat) : List Char :=
  match g.find? (fun e => e.1 == i) with
  | some e => e.2
  | none => []

/-! ### The eight series patterns (`extract_series_from_title`) -/

def catSeq : List RE → RE
  | [] => .eps
  | [r] => r
  | r :: rs => .seq r (catSeq rs)

/-- A literal character (the patterns are compiled with `re.IGNORECASE`,
which only affects letters; the case-insensitive literals use `ciChar`). -/
def chr (c : Char) : RE := .cls (fun x => x == c)

/-- A case-insensitive literal character. -/
def ciChar (c : Char) : RE := .cls (fun x => lowerChar x == c)

/-- A case-insensitive literal word. -/
def ciWord (s : String) : RE := catSeq (s.toList.map ciChar)

def wsCls (c : Char) : Bool := pyWs c

def digitCls (c : Char) : Bool := c.isDigit

/-- `.` (matches anything but newline). -/
def dotCls (c : Char) : Bool := !(c == '\n')

def notRParen (c : Char) : Bool := !(c == ')')

def dashColon (c : Char) : Bool := c == '-' || c == ':'

/-- `(\d+(?:\.\d+)?)` as capture group 2. -/
def numGroup : RE :=
  .grp 2 (.seq (.plusG digitCls) (.opt (.seq (chr '.') (.plusG digitCls))))

/-- `\(([^)]+?)\s*#(\d+(?:\.\d+)?)\)` — `(Series #1)`. -/
def pat1 : RE :=
  catSeq [chr '(', .grp 1 (.plusL notRParen), .starG wsCls, chr '#', numGroup, chr ')']

/-- `\(([^)]+?),?\s*Book\s+(\d+(?:\.\d+)?)\)` — `(Series, Book 1)`. -/
def pat2 : RE :=
  catSeq [chr '(', .grp 1 (.plusL notRParen), .opt (chr ','), .starG wsCls,
    ciWord "book", .plusG wsCls, numGroup, chr ')']

/-- `\(([^)]+?),?\s*Vol\.?\s+(\d+(?:\.\d+)?)\)` — `(Series, Vol 1)`. -/
def pat3 : RE :=
  catSeq [chr '(', .grp 1 (.plusL notRParen), .opt (chr ','), .starG wsCls,
    ciWord "vol", .opt (chr '.'), .plusG wsCls, numGroup, chr ')']

/-- `\(([^)]+?)\s*-\s*Book\s+(\d+(?:\.\d+)?)\)` — `(Series - Book 1)`. -/
def pat4 : RE :=
  catSeq [chr '(', .grp 1 (.plusL notRParen), .starG wsCls, chr '-', .starG wsCls,
    ciWord "book", .plusG wsCls, numGroup, chr ')']

/-- `^(.+?):\s*Book\s+(\d+(?:\.\d+)?)\s*[-:]` — `Series: Book 1 - Title`. -/
def pat5 : RE :=
  catSeq [.grp 1 (.plusL dotCls), chr ':', .starG wsCls, ciWord "book", .plusG wsCls,
    numGroup, .starG wsCls, .cls dashColon]

/-- `^(.+?)\s*#(\d+(?:\.\d+)?)\s*[-:]` — `Series #1 - Title`. -/
def pat6 : RE :=
  catSeq [.grp 1 (.plusL dotCls), .starG wsCls, chr '#', numGroup, .starG wsCls,
    .cls dashColon]

/-- `(.+?)\s+Book\s+(\d+(?:\.\d+)?)$` — `Title Book 1`. -/
def pat7 : RE :=
  catSeq [.grp 1 (.plusL dotCls), .plusG wsCls, ciWord "book", .plusG wsCls, numGroup, .eos]

/-- `(.+?)\s+#(\d+(?:\.\d+)?)$` — `Title #1`. -/
def pat8 : RE :=
  catSeq [.grp 1 (.plusL dotCls), .plusG wsCls, chr '#', numGroup, .eos]

/-- The ordered pattern list of `extract_series_from_title`
(with the `^`-anchored flag for patterns 5 and 6). -/
def seriesPatterns : List (RE × Bool) :=
  [(pat1, false), (pat2, false), (pat3, false), (pat4, false),
   (pat5, true), (pat6, true), (pat7, false), (pat8, false)]

/-- First pattern (in priority order) matching the title, with its match data. -/
def firstPatternMatch (title : List Char) :
    List (RE × Bool) → Option (RE × Bool × Nat × Nat × List (Nat × List Char))
  | [] => none
  | (r, anch) :: ps =>
    match reSearch r anch title with
    | some (st, sp, g) => some (r, anch, st, sp, g)
    | none => firstPatternMatch title ps

/-- `re.sub(r'^[-:\s]+|[-:\s]+$', '', s)`: delete the leading and the
trailing run of `-`, `:` and whitespace. -/
def edgePunctCls (c : Char) : Bool := c == '-' || c == ':' || pyWs c

def stripEdgePunct (l : List Char) : List Char :=
  ((l.dropWhile edgePunctCls).reverse.dropWhile edgePunctCls).reverse

/-- `extract_series_from_title(title)` (app.py:284-317).  Returns
`(clean_title, series, series_position)`; `series`/`series_position` are
`none` exactly when no pattern matched (Python `None`); a matched `series`
is the stripped group 1 text, which can be the empty string. -/
def extract_series_from_title (title : String) : String × Option String × Option String :=
  let tl := title.toList
  match firstPatternMatch tl seriesPatterns with
  | none => (title, none, none)
  | some (r, anch, _, _, g) =>
    let series := String.mk (stripWs (getGroup g 1))
    let position := String.mk (getGroup g 2)
    let cleaned1 := stripWs (reSubAll r anch (tl.length + 1) tl)
    let cleaned2 := stripWs (stripEdgePunct cleaned1)
    let cleanTitle := if cleaned2.length < 3 then title else String.mk cleaned2
    (cleanTitle, some series, some position)

/-! ### Provider records and `merge_books` -/

/-- The `source` value of a record: a provider name string, or a list of
provider names once sources have been accumulated (the code distinguishes
the two with `isinstance(..., str)`). -/
inductive Source where
  | str (s : String) : Source
  | list (l : List String) : Source
deriving DecidableEq, Repr

/-- A provider record / merged work candidate (the dict shape the three
`query_*` adapters emit and `merge_books` manipulates).  Missing dict keys
and Python `None` are both `none`. -/
structure Book where
  title : String := ""
  subtitle : Option String := none
  isbn : Option String := none
  isbn13 : Option String := none
  asin : Option String := none
  release_date : Option String := none
  format : Option String := none
  source : Source := .str ""
  cover_url : Option String := none
  description : Option String := none
  series : Option String := none
  series_position : Option String := none
  language : Option String := none
  have_it : Option Nat := none
deriving DecidableEq, Repr

/-- Lines 326-334 of `merge_books`: run the series extractor on the record's
title, overwrite `title`, and set `series`/`series_position` (cleared to
`None` when the extractor found nothing truthy). -/
def extractApply (b : Book) : Book :=
  let e := extract_series_from_title b.title
  let b := { b with title := e.1 }
  if truthy e.2.1 then { b with series := e.2.1, series_position := e.2.2 }
  else { b with series := none, series_position := none }

/-- Lines 335-346: the dedup key, priority `isbn13 > isbn > asin >
normalized title` (normalized = lowercased and stripped). -/
def dedupKey (b : Book) : String :=
  if truthy b.isbn13 then "isbn13:" ++ b.isbn13.getD ""
  else if truthy b.isbn then "isbn:" ++ b.isbn.getD ""
  else if truthy b.asin then "asin:" ++ b.asin.getD ""
  else "title:" ++ String.mk (stripWs (lowerStr b.title.toList))

/-- Lines 350-360: merge an incoming record `b` into the stored record `e`
under the same key: fill only empty fields, and accumulate `source`
(an existing string source is wrapped into a list, then the incoming source
is appended only when it is itself a string). -/
def mergeInto (e b : Book) : Book :=
  let fill := fun (ev bv : Option String) => if !truthy ev && truthy bv then bv else ev
  let srcList := match e.source with
    | .str s => [s]
    | .list l => l
  let srcList := match b.source with
    | .str s => srcList ++ [s]
    | .list _ => srcList
  { e with
    subtitle := fill e.subtitle b.subtitle,
    isbn := fill e.isbn b.isbn,
    isbn13 := fill e.isbn13 b.isbn13,
    asin := fill e.asin b.asin,
    cover_url := fill e.cover_url b.cover_url,
    description := fill e.description b.description,
    source := .list srcList }

/-- One iteration of the `merge_books` loop body on the insertion-ordered
dict `merged` (modelled as an association list in insertion order, which is
what `dict` preserves and `list(merged.values())` reads back). -/
def mergeStep (acc : List (String × Book)) (raw : Book) : List (String × Book) :=
  let b := extractApply raw
  let k := dedupKey b
  if (acc.find? (fun kv => kv.1 == k)).isSome then
    acc.map (fun kv => if kv.1 == k then (kv.1, mergeInto kv.2 b) else kv)
  else acc ++ [(k, b)]

/-- The dict built by `merge_books` over all records of all source lists. -/
def mergeDict (books_lists : List (List Book)) : List (String × Book) :=
  books_lists.flatten.foldl mergeStep []

/-- `merge_books(books_lists)` (app.py:320-362). -/
def merge_books (books_lists : List (List Book)) : List Book :=
  (mergeDict books_lists).map (fun kv => kv.2)

/-! ### The `books` table, identifier lookup, and the rescan upsert -/

/-- A persisted row of the `books` table (the columns the modelled routes
read or write).  `deleted` is the soft-delete tombstone flag. -/
structure DBRow where
  id : Nat := 0
  author_id : Nat := 0
  title : String := ""
  subtitle : Option String := none
  isbn : Option String := none
  isbn13 : Option String := none
  asin : Option String := none
  release_date : Option String := none
  format : Option String := none
  source : Option String := none
  cover_url : Option String := none
  description : Option String := none
  series : Option String := none
  series_position : Option String := none
  have_it : Nat := 0
  deleted : Bool := false
deriving DecidableEq, Repr

/-- SQL `COALESCE(existing, incoming)`: the existing value wins whenever it
is not NULL — an empty string is not NULL and therefore wins too. -/
def coalesce (a b : Option String) : Option String :=
  match a with
  | some v => some v
  | none => b

/-- The `UPDATE books SET have_it = ?, series = COALESCE(series, ?), ...`
statement of `scan_author` (app.py:1563-1586) applied to one row. -/
def updateExisting (r : DBRow) (b : Book) : DBRow :=
  { r with
    have_it := b.have_it.getD 0,
    series := coalesce r.series b.series,
    series_position := coalesce r.series_position b.series_position,
    cover_url := coalesce r.cover_url b.cover_url,
    subtitle := coalesce r.subtitle b.subtitle,
    description := coalesce r.description b.description,
    asin := coalesce r.asin b.asin,
    isbn := coalesce r.isbn b.isbn,
    isbn13 := coalesce r.isbn13 b.isbn13 }

/-- The existing-row lookup of `scan_author` (app.py:1509-1539): try
`isbn13`, then `isbn`, then `asin` (each only when the incoming value is
truthy), then fall back to title equality.  Each `SELECT ... fetchone()`
returns the first matching row in table order; the `deleted` column is not
filtered here. -/
def findExisting (db : List DBRow) (aid : Nat) (b : Book) : Option DBRow :=
  let e1 : Option DBRow :=
    if truthy b.isbn13 then db.find? (fun r => r.author_id == aid && r.isbn13 == b.isbn13)
    else none
  e1.orElse fun _ =>
    (if truthy b.isbn then db.find? (fun r => r.author_id == aid && r.isbn == b.isbn)
     else none).orElse fun _ =>
      (if truthy b.asin then db.find? (fun r => r.author_id == aid && r.asin == b.asin)
       else none).orElse fun _ =>
        db.find? (fun r => r.author_id == aid && r.title == b.title)

/-- `json.dumps` of a list of plain provider names, as stored in the
`source` column for multi-source records. -/
def jsonEscape (s : String) : String :=
  String.mk ((s.toList.map (fun c =>
    if c == '"' || c == '\\' then ['\\', c] else [c])).flatten)

def jsonDumpsList : List String → String
  | [] => "[]"
  | s :: rest =>
    "[\"" ++ jsonEscape s ++
      (rest.foldl (fun acc t => acc ++ "\", \"" ++ jsonEscape t) "") ++ "\"]"

def sourceColumn : Source → String
  | .str s => s
  | .list l => jsonDumpsList l

/-- SQLite AUTOINCREMENT: one more than the largest id ever used (modelled
as max over current rows). -/
def nextId (db : List DBRow) : Nat :=
  db.foldl (fun m r => max m r.id) 0 + 1

/-- The `INSERT INTO books ...` of `scan_author` (app.py:1546-1557). -/
def insertRow (db : List DBRow) (aid : Nat) (b : Book) : List DBRow :=
  db ++ [{ id := nextId db, author_id := aid, title := b.title,
           subtitle := b.subtitle, isbn := b.isbn, isbn13 := b.isbn13,
           asin := b.asin, release_date := b.release_date, format := b.format,
           source := some (sourceColumn b.source), cover_url := b.cover_url,
           description := b.description, series := b.series,
           series_position := b.series_position, have_it := b.have_it.getD 0,
           deleted := false }]

/-- The per-book store step of `scan_author` (app.py:1508-1587): skip when
the matched row is a tombstone, insert when nothing matched, otherwise
apply the COALESCE-preserving update in place.  Returns the new table and
`(inserted, updated)` flags. -/
def applyBook (db : List DBRow) (aid : Nat) (b : Book) : List DBRow × Bool × Bool :=
  match findExisting db aid b with
  | none => (insertRow db aid b, true, false)
  | some r =>
    if r.deleted then (db, false, false)
    else (db.map (fun row => if row.id == r.id then updateExisting row b else row),
          false, true)

/-! ### Settings -/

/-- The flat `settings` table, read back into a dict. -/
abbrev Settings := List (String × String)

/-- `settings.get(key)`: `none` when the key is absent. -/
def settingsFind (st : Settings) (k : String) : Option String :=
  (st.find? (fun kv => kv.1 == k)).map (fun kv => kv.2)

/-- `settings.get(key, default)`: a present empty string is returned as is. -/
def settingsGetD (st : Settings) (k d : String) : String :=
  (settingsFind st k).getD d

/-- `settings.get(key) or FALLBACK`: the stored value only wins when truthy. -/
def settingsGetOr (st : Settings) (k fallback : String) : String :=
  match settingsFind st k with
  | some v => if v.isEmpty then fallback else v
  | none => fallback

/-! ### The three metadata source adapters

Each adapter wraps its whole body in `try/except` and returns `[]` on any
failure (timeout, non-2xx via `raise_for_status`, malformed JSON); the
`Except Unit payload` argument is that externally-determined outcome.
Optional JSON keys read with `.get(...)` are `Option` fields; keys read
with mandatory `[...]` indexing are plain fields (a payload missing them
raises and is subsumed by the `.error` case). -/

structure OLDoc where
  title : Option String := none
  subtitle : Option String := none
  isbn : Option (List String) := none
  first_publish_year : Option Int := none
  cover_i : Option Nat := none
  language : Option (List String) := none
deriving Repr

structure OLData where
  docs : Option (List OLDoc) := none
deriving Repr

/-- `query_openlibrary(author_name, language_filter)` (app.py:154-191);
the author name only parametrises the HTTP request, so it does not appear. -/
def query_openlibrary (resp : Except Unit OLData) (language_filter : String) : List Book :=
  match resp with
  | .error _ => []
  | .ok data =>
    (data.docs.getD []).filterMap fun doc =>
      let book_languages := doc.language.getD ["en"]
      if !language_filter.isEmpty && language_filter != "all"
          && !book_languages.contains language_filter then none
      else
        let isbnList := doc.isbn.getD []
        let b : Book := {
          title := doc.title.getD "",
          subtitle := some (doc.subtitle.getD ""),
          isbn := isbnList.head?,
          isbn13 := isbnList.find? (fun s => s.length == 13),
          release_date := some (match doc.first_publish_year with
            | some y => toString y
            | none => ""),
          cover_url := match doc.cover_i with
            | some i =>
              if i == 0 then none
              else some ("https://covers.openlibrary.org/b/id/" ++ toString i ++ "-M.jpg")
            | none => none,
          language := some (book_languages.headD "en"),
          source := .str "OpenLibrary" }
        if b.title.isEmpty then none else some b

structure GBIndustryId where
  idType : String := ""
  identifier : String := ""
deriving Repr

structure GBVolumeInfo where
  title : Option String := none
  subtitle : Option String := none
  industryIdentifiers : Option (List GBIndustryId) := none
  publishedDate : Option String := none
  thumbnail : Option String := none
  description : Option String := none
  language : Option String := none
deriving Repr

structure GBItem where
  volumeInfo : Option GBVolumeInfo := none
deriving Repr

structure GBData where
  items : Option (List GBItem) := none
deriving Repr

/-- The identifier dict comprehension: later entries of the same type win. -/
def gbIdentifier (ids : List GBIndustryId) (ty : String) : Option String :=
  (ids.reverse.find? (fun i => i.idType == ty)).map (fun i => i.identifier)

/-- `query_google_books(author_name, language_filter)` (app.py:194-240). -/
def query_google_books (resp : Except Unit GBData) (language_filter : String) : List Book :=
  match resp with
  | .error _ => []
  | .ok data =>
    (data.items.getD []).filterMap fun item =>
      let vol_info := item.volumeInfo.getD {}
      let identifiers := vol_info.industryIdentifiers.getD []
      let book_lang := vol_info.language.getD "en"
      if !language_filter.isEmpty && language_filter != "all"
          && book_lang != language_filter then none
      else
        let b : Book := {
          title := vol_info.title.getD "",
          subtitle := some (vol_info.subtitle.getD ""),
          isbn := gbIdentifier identifiers "ISBN_10",
          isbn13 := gbIdentifier identifiers "ISBN_13",
          release_date := some (vol_info.publishedDate.getD ""),
          cover_url := vol_info.thumbnail,
          description := some (vol_info.description.getD ""),
          language := some book_lang,
          source := .str "GoogleBooks" }
        if b.title.isEmpty then none else some b

structure AudItem where
  title : Option String := none
  subtitle : Option String := none
  asin : Option String := none
  releaseDate : Option String := none
  image : Option String := none
deriving Repr

structure AudData where
  results : Option (List AudItem) := none
deriving Repr

/-- `query_audnexus(author_name, language_filter)` (app.py:243-281); the
language filter is accepted and ignored, as in the source. -/
def query_audnexus (resp : Except Unit AudData) (language_filter : String) : List Book :=
  match resp with
  | .error _ => []
  | .ok data =>
    let _ := language_filter
    ((data.results.getD []).take 40).filterMap fun item =>
      let b : Book := {
        title := item.title.getD "",
        subtitle := some (item.subtitle.getD ""),
        asin := some (item.asin.getD ""),
        release_date := some (item.releaseDate.getD ""),
        cover_url := item.image,
        format := some "audiobook",
        language := some "en",
        source := .str "Audnexus" }
      if b.title.isEmpty then none else some b

/-! ### The ownership matcher (`check_audiobookshelf`) -/

/-- The matcher's word normalization (app.py:456-458 and 502): on the
already lowercased/stripped title, delete `:` and `,`, replace `-` with a
space, then split on whitespace into a word set. -/
def absNormalize (l : List Char) : List Char :=
  replaceChar '-' [' '] (replaceChar ',' [] (replaceChar ':' [] l))

def absWordSet (l : List Char) : List String :=
  dedupFirst (pySplit (absNormalize l))

/-- Strategy 1 (app.py:488): case-insensitive substring containment in
either direction, against the lowercased/stripped candidate title. -/
def absSubstrMatch (book_title abs_title_raw : String) : Bool :=
  let abs_title := stripWs (lowerStr abs_title_raw.toList)
  substrB (lowerStr book_title.toList) abs_title
    || substrB abs_title (lowerStr book_title.toList)

/-- Strategy 2 (app.py:502-508): normalized word-overlap ratio
`|titleWords ∩ candidateWords| / |titleWords| >= 0.75` (guarded by a
non-empty title word set); the float comparison is modelled exactly. -/
def absOverlapMatch (book_title abs_title_raw : String) : Bool :=
  let title_words := absWordSet (stripWs (lowerStr book_title.toList))
  let abs_title := stripWs (lowerStr abs_title_raw.toList)
  let abs_words := absWordSet abs_title
  title_words.length > 0
    && 4 * overlapCount title_words abs_words ≥ 3 * title_words.length

/-- The matcher's per-candidate decision: substring strategy first, then
word overlap. -/
def absCandidateMatch (book_title abs_title_raw : String) : Bool :=
  absSubstrMatch book_title abs_title_raw || absOverlapMatch book_title abs_title_raw

structure AbsSeriesEntry where
  name : Option String := none
  sequence : Option String := none
deriving Repr

/-- `item['libraryItem']['media']['metadata']` of one search result, with
the `.get` chain collapsed to the two fields the code reads. -/
structure AbsMeta where
  title : Option String := none
  series : Option (List AbsSeriesEntry) := none
deriving Repr

/-- `metadata.get('series', [])[0]`'s name/sequence, when any. -/
def absSeriesOf (m : AbsMeta) : Option String × Option String :=
  match m.series.getD [] with
  | [] => (none, none)
  | e :: _ => (e.name, e.sequence)

/-- Scan one library's search results (app.py:479-519): first matching item
wins, substring strategy before word overlap. -/
def absScanItems (book_title : String) : List AbsMeta → Option (Bool × Option String × Option String)
  | [] => none
  | m :: rest =>
    if absSubstrMatch book_title (m.title.getD "") then
      some (true, absSeriesOf m)
    else if absOverlapMatch book_title (m.title.getD "") then
      some (true, absSeriesOf m)
    else absScanItems book_title rest

/-- Scan the libraries (app.py:461-519); a library whose search returned
non-200 (`.error`) is silently skipped. -/
def absScanLibs (book_title : String) :
    List (Except Unit (List AbsMeta)) → Option (Bool × Option String × Option String)
  | [] => none
  | .error _ :: rest => absScanLibs book_title rest
  | .ok items :: rest =>
    match absScanItems book_title items with
    | some r => some r
    | none => absScanLibs book_title rest

/-- `check_audiobookshelf(book_title, author_name)` (app.py:428-524).
`libs` is the outcome of the `/api/libraries` call (`.error` covers both a
raised exception and a non-200 status) carrying, per library, the outcome
of that library's search call. -/
def check_audiobookshelf (settings : Settings) (envUrl envToken : String)
    (libs : Except Unit (List (Except Unit (List AbsMeta))))
    (book_title : String) : Bool × Option String × Option String :=
  let abs_url := settingsGetOr settings "audiobookshelf_url" envUrl
  let abs_token := settingsGetOr settings "audiobookshelf_token" envToken
  if abs_url.isEmpty || abs_token.isEmpty then (false, none, none)
  else
    match libs with
    | .error _ => (false, none, none)
    | .ok ls =>
      match absScanLibs book_title ls with
      | some r => r
      | none => (false, none, none)

/-! ### The Audible series fallback (`search_audible_metadata_direct`) -/

structure AudibleProduct where
  asin : Option String := none
deriving Repr

structure AudnexusSeries where
  name : Option String := none
  position : Option String := none
deriving Repr

structure AudnexusBookData where
  seriesPrimary : Option AudnexusSeries := none
deriving Repr

/-- `search_audible_metadata_direct(book_title, author_name)`
(app.py:365-425): two chained requests, every failure or missing field
yielding `(None, None)`. -/
def search_audible_metadata_direct (step1 : Except Unit (List AudibleProduct))
    (step2 : Except Unit AudnexusBookData) : Option String × Option String :=
  match step1 with
  | .error _ => (none, none)
  | .ok products =>
    match products with
    | [] => (none, none)
    | p :: _ =>
      match p.asin with
      | none => (none, none)
      | some a =>
        if a.isEmpty then (none, none)
        else
          match step2 with
          | .error _ => (none, none)
          | .ok bd =>
            match bd.seriesPrimary with
            | none => (none, none)
            | some sp =>
              match sp.name with
              | none => (none, none)
              | some nm =>
                if nm.isEmpty then (none, none) else (some nm, sp.position)

/-! ### `scan_author` -/

/-- The ownership/series pass of `scan_author` (app.py:1490-1503) on one
merged record. -/
def ownershipPass (settings : Settings) (envUrl envToken : String)
    (libs : Except Unit (List (Except Unit (List AbsMeta))))
    (audStep1 : Except Unit (List AudibleProduct))
    (audStep2 : Except Unit AudnexusBookData) (b : Book) : Book :=
  let res := check_audiobookshelf settings envUrl envToken libs b.title
  let b := { b with have_it := some (if res.1 then 1 else 0) }
  if truthy res.2.1 then { b with series := res.2.1, series_position := res.2.2 }
  else if !res.1 && !truthy b.series then
    let aud := search_audible_metadata_direct audStep1 audStep2
    if truthy aud.1 then { b with series := aud.1, series_position := aud.2 }
    else b
  else b

/-- A `scan_history` row: `(author_id, books_found, new_books)`. -/
structure ScanHistoryRow where
  author_id : Nat
  books_found : Nat
  new_books : Nat
deriving DecidableEq, Repr

structure ScanOutcome where
  db : List DBRow
  new_books : Nat
  updated_books : Nat
  history : ScanHistoryRow
deriving Repr

/-- `scan_author(author_id)` (app.py:1464-1604), with every external call's
outcome passed in: the three metadata responses, the ownership catalog
world, and the Audible fallback responses (shared across the per-book loop;
the loop is empty or the calls identical in the properties proved here). -/
def scan_author (settings : Settings) (envAbsUrl envAbsToken : String)
    (olResp : Except Unit OLData) (gbResp : Except Unit GBData)
    (audResp : Except Unit AudData)
    (libs : Except Unit (List (Except Unit (List AbsMeta))))
    (audStep1 : Except Unit (List AudibleProduct))
    (audStep2 : Except Unit AudnexusBookData)
    (db : List DBRow) (aid : Nat) : ScanOutcome :=
  let language_filter := settingsGetD settings "language_filter" "all"
  let all_books := merge_books
    [query_openlibrary olResp language_filter,
     query_google_books gbResp language_filter,
     query_audnexus audResp language_filter]
  let all_books := all_books.map
    (ownershipPass settings envAbsUrl envAbsToken libs audStep1 audStep2)
  let fin := all_books.foldl
    (fun (st : List DBRow × Nat × Nat) b =>
      let r := applyBook st.1 aid b
      (r.1, st.2.1 + (if r.2.1 then 1 else 0), st.2.2 + (if r.2.2 then 1 else 0)))
    (db, 0, 0)
  { db := fin.1, new_books := fin.2.1, updated_books := fin.2.2,
    history := { author_id := aid, books_found := all_books.length,
                 new_books := fin.2.1 } }

/-! ### The duplicate detector (`view_duplicates`) -/

/-- The title normalization of the duplicate check (app.py:1683-1691):
lowercase, strip, replace `: , - ! ? .` by spaces, collapse whitespace. -/
def dupNormalize (t : String) : List Char :=
  let l := stripWs (lowerStr t.toList)
  let l := [':', ',', '-', '!', '?', '.'].foldl (fun acc c => replaceChar c [' '] acc) l
  (String.intercalate " " (pySplit l)).toList

/-- The title-similarity branch (app.py:1693-1703): containment either way,
or word overlap `/ max(|words1|, |words2|) >= 0.9` (both sets non-empty);
the float comparison is modelled exactly. -/
def dupTitleSimilar (t1 t2 : String) : Bool :=
  let n1 := dupNormalize t1
  let n2 := dupNormalize t2
  if substrB n1 n2 || substrB n2 n1 then true
  else
    let w1 := dedupFirst (pySplit n1)
    let w2 := dedupFirst (pySplit n2)
    w1.length > 0 && w2.length > 0
      && 10 * overlapCount w1 w2 ≥ 9 * max w1.length w2.length

/-- The pairwise duplicate test of `view_duplicates` (app.py:1671-1703). -/
def isDupPair (b1 b2 : DBRow) : Bool :=
  (truthy b1.isbn13 && truthy b2.isbn13 && b1.isbn13 == b2.isbn13)
    || (truthy b1.isbn && truthy b2.isbn && b1.isbn == b2.isbn)
    || (truthy b1.asin && truthy b2.asin && b1.asin == b2.asin)
    || dupTitleSimilar b1.title b2.title

/-- The inner loop over `all_books[i+1:]` (app.py:1667-1707): collect into
`book1`'s group every later unprocessed row that matches `book1`. -/
def dupInner (b1 : DBRow) : List DBRow → List Nat → List DBRow × List Nat
  | [], processed => ([], processed)
  | b2 :: rest, processed =>
    if processed.contains b2.id then dupInner b1 rest processed
    else if isDupPair b1 b2 then
      let r := dupInner b1 rest (b2.id :: processed)
      (b2 :: r.1, r.2)
    else dupInner b1 rest processed

/-- The outer loop of `view_duplicates` (app.py:1660-1711): each unprocessed
row seeds a group; only groups of size ≥ 2 are returned. -/
def dupOuter : List DBRow → List Nat → List (List DBRow)
  | [], _ => []
  | b1 :: rest, processed =>
    if processed.contains b1.id then dupOuter rest processed
    else
      let r := dupInner b1 rest (b1.id :: processed)
      let group := b1 :: r.1
      let groups := dupOuter rest r.2
      if group.length > 1 then group :: groups else groups

/-- The duplicate grouping of `view_duplicates` (app.py:1656-1711), applied
to the author's non-deleted rows as returned `ORDER BY title`. -/
def findDuplicateGroups (books : List DBRow) : List (List DBRow) :=
  dupOuter books []

/-! ### Unified search (`search_prowlarr_api`, `search_jackett_api`,
`unified_search`) -/

structure ProwlarrItem where
  title : Option String := none
  size : Option Int := none
  indexer : Option String := none
  downloadUrl : Option String := none
  guid : Option String := none
  publishDate : Option String := none
deriving Repr

structure JackettItem where
  jTitle : Option String := none
  jSize : Option Int := none
  jTracker : Option String := none
  jLink : Option String := none
  jMagnetUri : Option String := none
  jGuid : Option String := none
  jSeeders : Option Int := none
  jPeers : Option Int := none
  jPublishDate : Option String := none
deriving Repr

/-- A transient search result dict.  `magnet_url`/`leechers` are `Option`
because the Prowlarr parser never sets those keys. -/
structure SearchResult where
  title : String := ""
  source : String := ""
  rtype : String := ""
  size : Int := 0
  indexer : String := ""
  download_url : String := ""
  magnet_url : Option String := none
  guid : String := ""
  seeders : Int := 0
  leechers : Option Int := none
  publish_date : String := ""
deriving DecidableEq, Repr

/-- `search_prowlarr_api(query)` (app.py:679-725): every parsed result is
typed `Usenet` with `seeders = 0`. -/
def search_prowlarr_api (settings : Settings) (envUrl envKey : String)
    (resp : Except Unit (List ProwlarrItem)) : List SearchResult :=
  let prowlarr_url := settingsGetOr settings "prowlarr_url" envUrl
  let prowlarr_key := settingsGetOr settings "prowlarr_api_key" envKey
  if prowlarr_url.isEmpty || prowlarr_key.isEmpty then []
  else
    match resp with
    | .error _ => []
    | .ok items =>
      items.map fun item =>
        { title := item.title.getD "", source := "Prowlarr", rtype := "Usenet",
          size := item.size.getD 0, indexer := item.indexer.getD "",
          download_url := item.downloadUrl.getD "", guid := item.guid.getD "",
          seeders := 0, publish_date := item.publishDate.getD "" }

/-- `search_jackett_api(query)` (app.py:728-786). -/
def search_jackett_api (settings : Settings)
    (resp : Except Unit (List JackettItem)) : List SearchResult :=
  let jackett_url := settingsFind settings "jackett_url"
  let jackett_key := settingsFind settings "jackett_api_key"
  if !truthy jackett_url || !truthy jackett_key then []
  else
    match resp with
    | .error _ => []
    | .ok items =>
      items.map fun item =>
        { title := item.jTitle.getD "", source := "Jackett", rtype := "Torrent",
          size := item.jSize.getD 0, indexer := item.jTracker.getD "",
          download_url := item.jLink.getD "",
          magnet_url := some (item.jMagnetUri.getD ""),
          guid := item.jGuid.getD "", seeders := item.jSeeders.getD 0,
          leechers := some (item.jPeers.getD 0),
          publish_date := item.jPublishDate.getD "" }

/-- `(seeders, size)` of `a` is lexicographically strictly above that of `b`. -/
def sortKeyGT (a b : SearchResult) : Bool :=
  b.seeders < a.seeders || (b.seeders == a.seeders && b.size < a.size)

/-- `(seeders, size)` of `a` is lexicographically at or above that of `b`. -/
def sortKeyGE (a b : SearchResult) : Bool :=
  b.seeders < a.seeders || (b.seeders == a.seeders && b.size ≤ a.size)

/-- Stable descending insertion: an element passes strictly greater keys and
stops before the first non-greater one, so that equal keys keep their
original order — the behaviour of `list.sort(key=..., reverse=True)`. -/
def insDesc (x : SearchResult) : List SearchResult → List SearchResult
  | [] => [x]
  | y :: ys => if sortKeyGT y x then y :: insDesc x ys else x :: y :: ys

/-- The stable descending sort of `unified_search` (app.py:801-805). -/
def pySortDesc (l : List SearchResult) : List SearchResult :=
  l.foldr insDesc []

/-- `unified_search(query)` (app.py:789-808): concatenate the two adapters'
results, sort descending by the `(seeders, size)` tuple. -/
def unified_search (settings : Settings) (envUrl envKey : String)
    (presp : Except Unit (List ProwlarrItem))
    (jresp : Except Unit (List JackettItem)) : List SearchResult :=
  pySortDesc (search_prowlarr_api settings envUrl envKey presp
    ++ search_jackett_api settings jresp)

/-! ### The download dispatcher (`send_to_download_client`) -/

/-- `send_to_download_client(download_url, title, result_type)`
(app.py:1079-1100).  The five backend submission functions are passed in as
behaviours `(download_url, title) ↦ success`; the unknown-client branch
calls none of them and returns `False`. -/
def send_to_download_client
    (sab qb trans del rtor : String → String → Bool)
    (settings : Settings) (download_url title result_type : String) : Bool :=
  if result_type == "Usenet" then sab download_url title
  else
    let client_type := settingsGetD settings "torrent_client_type" "qbittorrent"
    if client_type == "qbittorrent" then qb download_url title
    else if client_type == "transmission" then trans download_url title
    else if client_type == "deluge" then del download_url title
    else if client_type == "rtorrent" then rtor download_url title
    else false

/-! ## Supporting lemmas about the merge dictionary -/

/-- The keys of the merge dict, in insertion order. -/
def dictKeys (acc : List (String × Book)) : List String :=
  acc.map (fun kv => kv.1)

theorem find?_key_isSome_iff (acc : List (String × Book)) (k : String) :
    ((acc.find? (fun kv => kv.1 == k)).isSome = true) ↔ k ∈ dictKeys acc := by
  rw [List.find?_isSome]
  simp [dictKeys, beq_iff_eq]

theorem dictKeys_update (acc : List (String × Book)) (k : String) (b : Book) :
    dictKeys (acc.map (fun kv => if kv.1 == k then (kv.1, mergeInto kv.2 b) else kv))
      = dictKeys acc := by
  unfold dictKeys
  rw [List.map_map]
  apply List.map_congr_left
  intro kv _
  by_cases h : kv.1 = k
  · simp [h]
  · simp [h]

theorem dictKeys_mergeStep (acc : List (String × Book)) (b : Book) :
    dictKeys (mergeStep acc b) =
      if dedupKey (extractApply b) ∈ dictKeys acc then dictKeys acc
      else dictKeys acc ++ [dedupKey (extractApply b)] := by
  by_cases h : dedupKey (extractApply b) ∈ dictKeys acc
  · rw [if_pos h]
    have h' : ((acc.find? (fun kv => kv.1 == dedupKey (extractApply b))).isSome = true) :=
      (find?_key_isSome_iff _ _).mpr h
    simp only [mergeStep, h', if_true]
    exact dictKeys_update acc _ (extractApply b)
  · rw [if_neg h]
    have h' : ¬ ((acc.find? (fun kv => kv.1 == dedupKey (extractApply b))).isSome = true) :=
      fun hc => h ((find?_key_isSome_iff _ _).mp hc)
    simp only [mergeStep, Bool.not_eq_true] at h' ⊢
    rw [h']
    simp [dictKeys]

theorem mem_keys_foldl_of_mem (l : List Book) (acc : List (String × Book)) (k : String)
    (h : k ∈ dictKeys acc) : k ∈ dictKeys (l.foldl mergeStep acc) := by
  induction l generalizing acc with
  | nil => exact h
  | cons hd tl ih =>
    rw [List.foldl_cons]
    apply ih
    rw [dictKeys_mergeStep]
    split
    · exact h
    · exact List.mem_append_left _ h

theorem key_mem_keys_foldl (l : List Book) (acc : List (String × Book)) (b : Book)
    (hb : b ∈ l) : dedupKey (extractApply b) ∈ dictKeys (l.foldl mergeStep acc) := by
  induction l generalizing acc with
  | nil => cases hb
  | cons hd tl ih =>
    rcases List.mem_cons.mp hb with rfl | h
    · rw [List.foldl_cons]
      apply mem_keys_foldl_of_mem
      rw [dictKeys_mergeStep]
      split
      · assumption
      · exact List.mem_append_right _ (List.mem_singleton.mpr rfl)
    · rw [List.foldl_cons]
      exact ih _ h

theorem keys_foldl_stable (l : List Book) (acc : List (String × Book))
    (h : ∀ b ∈ l, dedupKey (extractApply b) ∈ dictKeys acc) :
    dictKeys (l.foldl mergeStep acc) = dictKeys acc := by
  induction l generalizing acc with
  | nil => rfl
  | cons hd tl ih =>
    have h1 : dedupKey (extractApply hd) ∈ dictKeys acc := h hd (List.mem_cons_self _ _)
    have hstep : dictKeys (mergeStep acc hd) = dictKeys acc := by
      rw [dictKeys_mergeStep, if_pos h1]
    rw [List.foldl_cons, ih (mergeStep acc hd) ?_, hstep]
    intro b hb
    rw [hstep]
    exact h b (List.mem_cons_of_mem _ hb)

theorem mem_keys_foldl_iff (l : List Book) (acc : List (String × Book)) (k : String) :
    k ∈ dictKeys (l.foldl mergeStep acc) ↔
      k ∈ dictKeys acc ∨ k ∈ l.map (fun b => dedupKey (extractApply b)) := by
  induction l generalizing acc with
  | nil => simp
  | cons hd tl ih =>
    rw [List.foldl_cons, ih, dictKeys_mergeStep]
    by_cases h : dedupKey (extractApply hd) ∈ dictKeys acc
    · rw [if_pos h]
      simp only [List.map_cons, List.mem_cons]
      constructor
      · rintro (hk | hk)
        · exact Or.inl hk
        · exact Or.inr (Or.inr hk)
      · rintro (hk | rfl | hk)
        · exact Or.inl hk
        · exact Or.inl h
        · exact Or.inr hk
    · rw [if_neg h]
      simp only [List.mem_append, List.mem_singleton, List.map_cons, List.mem_cons,
        List.not_mem_nil, or_false]
      constructor
      · rintro ((hk | rfl) | hk)
        · exact Or.inl hk
        · exact Or.inr (Or.inl rfl)
        · exact Or.inr (Or.inr hk)
      · rintro (hk | rfl | hk)
        · exact Or.inl (Or.inl hk)
        · exact Or.inl (Or.inr rfl)
        · exact Or.inr hk

theorem keys_foldl_nodup (l : List Book) (acc : List (String × Book))
    (h : (dictKeys acc).Nodup) : (dictKeys (l.foldl mergeStep acc)).Nodup := by
  induction l generalizing acc with
  | nil => exact h
  | cons hd tl ih =>
    rw [List.foldl_cons]
    apply ih
    rw [dictKeys_mergeStep]
    split
    · exact h
    · rw [List.nodup_append]
      refine ⟨h, List.nodup_singleton _, ?_⟩
      intro a ha hb
      rw [List.mem_singleton] at hb
      subst hb
      exact (by assumption : _ ∉ dictKeys acc) ha

theorem length_merge_books (ls : List (List Book)) :
    (merge_books ls).length = (dictKeys (mergeDict ls)).length := by
  unfold merge_books dictKeys
  rw [List.length_map, List.length_map]

/-! ## C1 — merge idempotence -/

/-- C1: the claim "merge_books([M, M]) yields exactly M again — no record is
duplicated, and no field of any record (including title, series,
series_position, and source) changes" is false: for
`M = merge_books([[{title: 'Foo (Bar #1)', source: 'X'}]])` the remerge
resets `series`/`series_position` to null (the cleaned title no longer
matches a pattern) and turns `source` `'X'` into `['X', 'X']`. -/
theorem C1_counterexample :
    merge_books
        [merge_books [[{ title := "Foo (Bar #1)", source := .str "X" }]],
         merge_books [[{ title := "Foo (Bar #1)", source := .str "X" }]]]
      ≠ merge_books [[{ title := "Foo (Bar #1)", source := .str "X" }]] := by
  decide

/-- C1 (amended): merging a set `M` with itself never duplicates a record —
`merge_books([M, M])` has exactly the same dedup keys, in the same order,
and hence the same number of records as `merge_books([M])`; but fields of
the records do change (series data is recomputed from the already-cleaned
titles and the `source` field accumulates a duplicate provider entry), so
`merge_books([M, M]) = M` fails. -/
theorem C1_merge_self_no_duplication (M : List Book) :
    dictKeys (mergeDict [M, M]) = dictKeys (mergeDict [M]) ∧
    (merge_books [M, M]).length = (merge_books [M]).length := by
  have hflat : ([M, M] : List (List Book)).flatten = M ++ M := by simp
  have hflat1 : ([M] : List (List Book)).flatten = M := by simp
  have hkeys : dictKeys (mergeDict [M, M]) = dictKeys (mergeDict [M]) := by
    unfold mergeDict
    rw [hflat, hflat1, List.foldl_append]
    apply keys_foldl_stable
    intro b hb
    exact key_mem_keys_foldl M [] b hb
  refine ⟨hkeys, ?_⟩
  rw [length_merge_books, length_merge_books, hkeys]

/-! ## C2 — series extraction idempotence -/

/-- C2: the claim "for every title on which `extract_series_from_title`
matches a pattern, re-applying it to the returned cleanTitle matches no
pattern" is false at `"A Book 2"`: the stripped title is shorter than 3
characters, so the original title is returned as cleanTitle — and it still
matches the trailing-`Book N` pattern. -/
theorem C2_counterexample :
    (extract_series_from_title "A Book 2").1 = "A Book 2" ∧
    (extract_series_from_title "A Book 2").2.1.isSome = true ∧
    extract_series_from_title (extract_series_from_title "A Book 2").1
      ≠ ((extract_series_from_title "A Book 2").1, none, none) := by
  decide

/-- C2 (amended): re-running the extractor on the returned cleanTitle yields
`(cleanTitle, null, null)` provided the cleanTitle itself matches none of the
eight series patterns; idempotence fails otherwise (the under-3-characters
guard can return the original, still-matching title, and a residual pattern
can survive the strip). -/
theorem C2_extract_clean_no_match (t c s p : String)
    (h1 : extract_series_from_title t = (c, some s, some p))
    (h2 : (firstPatternMatch c.toList seriesPatterns).isSome = false) :
    extract_series_from_title c = (c, none, none) := by
  have := h1
  have h2' : firstPatternMatch c.toList seriesPatterns = none := by
    cases hm : firstPatternMatch c.toList seriesPatterns
    · rfl
    · rw [hm] at h2
      simp at h2
  simp only [extract_series_from_title, h2']

/-- Witness for `C2_extract_clean_no_match` at the concrete title
`"Foo (Bar #1)"`, whose cleanTitle `"Foo"` matches no pattern. -/
theorem C2_witness : extract_series_from_title "Foo" = ("Foo", none, none) :=
  C2_extract_clean_no_match "Foo (Bar #1)" "Foo" "Bar" "1" (by decide) (by decide)

/-! ## C4 — merge commutativity in the source-list order -/

/-- C4: the claim that `merge_books([A, B])` and `merge_books([B, A])`
produce the same records "differing at most in the ordering inside the
source field" is false: with agreeing dedup keys but conflicting non-empty
`subtitle` values, first-encounter-wins makes the subtitles differ. -/
theorem C4_counterexample :
    (merge_books [[{ title := "Foo", subtitle := some "x", source := .str "S" }],
                  [{ title := "Foo", subtitle := some "y", source := .str "T" }]]).map
        (fun b => b.subtitle)
      ≠ (merge_books [[{ title := "Foo", subtitle := some "y", source := .str "T" }],
                      [{ title := "Foo", subtitle := some "x", source := .str "S" }]]).map
        (fun b => b.subtitle) := by
  decide

/-- C4 (amended): swapping the two source lists yields the same set of dedup
keys (a permutation of the key list) and hence the same number of canonical
records; but the per-record field values follow first-encounter-wins, so
same-key records carrying conflicting non-empty fields differ between the
two orders — beyond just the `source` ordering, which follows encounter
order. -/
theorem C4_merge_key_commutative (A B : List Book) :
    (dictKeys (mergeDict [A, B])).Perm (dictKeys (mergeDict [B, A])) ∧
    (merge_books [A, B]).length = (merge_books [B, A]).length := by
  have hAB : ([A, B] : List (List Book)).flatten = A ++ B := by simp
  have hBA : ([B, A] : List (List Book)).flatten = B ++ A := by simp
  have hnodupAB : (dictKeys (mergeDict [A, B])).Nodup := by
    unfold mergeDict
    exact keys_foldl_nodup _ [] (by simp [dictKeys])
  have hnodupBA : (dictKeys (mergeDict [B, A])).Nodup := by
    unfold mergeDict
    exact keys_foldl_nodup _ [] (by simp [dictKeys])
  have hperm : (dictKeys (mergeDict [A, B])).Perm (dictKeys (mergeDict [B, A])) := by
    rw [List.perm_ext_iff_of_nodup hnodupAB hnodupBA]
    intro k
    unfold mergeDict
    rw [hAB, hBA, mem_keys_foldl_iff, mem_keys_foldl_iff]
    simp only [dictKeys, List.map_nil, List.not_mem_nil, false_or, List.map_append,
      List.mem_append]
    exact Or.comm
  exact ⟨hperm, by rw [length_merge_books, length_merge_books, hperm.length_eq]⟩

/-! ## C7 — failure isolation of a scan -/

/-- C7: when all three metadata sources fail (modelled by `.error ()`: any
raised exception, non-2xx status or malformed payload) and regardless of the
ownership catalog's state, `scan_author` completes: each source contributes
an empty list, the table is unchanged, `new_books = 0`, and a scan_history
row with `books_found = 0` is still recorded. -/
theorem C7_failed_sources_scan_completes (settings : Settings)
    (envAbsUrl envAbsToken : String)
    (libs : Except Unit (List (Except Unit (List AbsMeta))))
    (audStep1 : Except Unit (List AudibleProduct))
    (audStep2 : Except Unit AudnexusBookData)
    (db : List DBRow) (aid : Nat) :
    scan_author settings envAbsUrl envAbsToken (.error ()) (.error ()) (.error ())
        libs audStep1 audStep2 db aid =
      { db := db, new_books := 0, updated_books := 0,
        history := { author_id := aid, books_found := 0, new_books := 0 } } := by
  rfl

/-! ## C3 — upsert with preserve -/

theorem coalesce_eq_ite (a b : Option String) :
    coalesce a b = if a = none then b else a := by
  cases a <;> rfl

/-- C3: the claim "an empty destination value is filled from the incoming
record" is false: SQL `COALESCE` only replaces NULL, and an empty-string
destination (as OpenLibrary inserts for a missing subtitle) is not NULL, so
it is preserved instead of being filled. -/
theorem C3_counterexample :
    (updateExisting { id := 7, author_id := 1, title := "Foo", subtitle := some "" }
        { title := "Foo", subtitle := some "Real" }).subtitle = some "" ∧
    some "" ≠ (some "Real" : Option String) := by
  decide

/-- C3 (amended): for a scanned book matching an existing non-deleted row,
the update always overwrites `have_it` with the incoming value, and each of
the other listed fields is updated exactly when the existing destination is
SQL NULL; an empty-string destination counts as present and is preserved,
not filled. -/
theorem C3_upsert_preserve (db : List DBRow) (aid : Nat) (b : Book) (r : DBRow)
    (h1 : findExisting db aid b = some r) (h2 : r.deleted = false) :
    applyBook db aid b =
      (db.map (fun row => if row.id == r.id then updateExisting row b else row),
        false, true) ∧
    (updateExisting r b).have_it = b.have_it.getD 0 ∧
    (updateExisting r b).series = (if r.series = none then b.series else r.series) ∧
    (updateExisting r b).series_position
      = (if r.series_position = none then b.series_position else r.series_position) ∧
    (updateExisting r b).cover_url
      = (if r.cover_url = none then b.cover_url else r.cover_url) ∧
    (updateExisting r b).subtitle
      = (if r.subtitle = none then b.subtitle else r.subtitle) ∧
    (updateExisting r b).description
      = (if r.description = none then b.description else r.description) ∧
    (updateExisting r b).asin = (if r.asin = none then b.asin else r.asin) ∧
    (updateExisting r b).isbn = (if r.isbn = none then b.isbn else r.isbn) ∧
    (updateExisting r b).isbn13 = (if r.isbn13 = none then b.isbn13 else r.isbn13) ∧
    (updateExisting r b).title = r.title := by
  refine ⟨?_, ?_, ?_, ?_, ?_, ?_, ?_, ?_, ?_, ?_, ?_⟩
  · simp [applyBook, h1, h2]
  all_goals simp [updateExisting, coalesce_eq_ite]

/-- Witness for `C3_upsert_preserve`: a one-row table matched by title,
`have_it` overwritten with the incoming value 1. -/
theorem C3_witness :
    (updateExisting { id := 1, author_id := 1, title := "Foo", subtitle := some "" }
        { title := "Foo", subtitle := some "Real", have_it := some 1 }).have_it = 1 :=
  (C3_upsert_preserve [{ id := 1, author_id := 1, title := "Foo", subtitle := some "" }] 1
      { title := "Foo", subtitle := some "Real", have_it := some 1 }
      { id := 1, author_id := 1, title := "Foo", subtitle := some "" }
      (by decide) rfl).2.1

/-! ## C5 — duplicate grouping by isbn13 -/

def cw1 : DBRow := { id := 1, title := "common story" }

def cw2 : DBRow := { id := 2, title := "common story", isbn13 := some "111" }

def cw3 : DBRow := { id := 3, title := "zzz totally different", isbn13 := some "111" }

/-- C5: the claim "any two works carrying equal non-null isbn13 values are
placed together in the same returned group" is false: duplicate comparison
is only against each group's seed work.  Here `cw2` (isbn13 111) is absorbed
into `cw1`'s group by title similarity, and `cw3` (isbn13 111) is never
compared to `cw2` — it is compared to `cw1` only, does not match, and ends
in no group at all. -/
theorem C5_counterexample :
    cw2.isbn13 = some "111" ∧ cw3.isbn13 = some "111" ∧
    (findDuplicateGroups [cw1, cw2, cw3]).map (fun g => g.map (fun r => r.id))
      = [[1, 2]] ∧
    (findDuplicateGroups [cw1, cw2, cw3]).all
        (fun g => !(g.contains cw2 && g.contains cw3)) = true := by
  decide

/-- C5 (amended): isbn13 matching is tested only against the group seed: two
works with equal non-null isbn13 and distinct ids are grouped together
whenever the earlier one seeds the group — in particular, for an input of
exactly those two works the detector returns the single group holding both.
A third work that absorbs one of them first can keep them apart. -/
theorem C5_isbn13_pair_grouped (b1 b2 : DBRow) (x : String)
    (hid : b1.id ≠ b2.id) (h1 : b1.isbn13 = some x) (h2 : b2.isbn13 = some x)
    (hx : x.isEmpty = false) :
    findDuplicateGroups [b1, b2] = [[b1, b2]] := by
  have hdup : isDupPair b1 b2 = true := by
    simp [isDupPair, truthy, h1, h2, hx]
  have hne : ¬(b2.id = b1.id) := fun h => hid h.symm
  simp [findDuplicateGroups, dupOuter, dupInner, List.contains, hdup, hne]

/-- Witness for `C5_isbn13_pair_grouped` at two concrete rows sharing
isbn13 "9781000000001". -/
theorem C5_witness :
    findDuplicateGroups
        [{ id := 1, title := "alpha", isbn13 := some "9781000000001" },
         { id := 2, title := "omega", isbn13 := some "9781000000001" }]
      = [[{ id := 1, title := "alpha", isbn13 := some "9781000000001" },
          { id := 2, title := "omega", isbn13 := some "9781000000001" }]] :=
  C5_isbn13_pair_grouped
    { id := 1, title := "alpha", isbn13 := some "9781000000001" }
    { id := 2, title := "omega", isbn13 := some "9781000000001" }
    "9781000000001" (by decide) rfl rfl rfl

/-! ## C6 — tombstone exclusion -/

theorem orElse_isSome (a : Option DBRow) (f : Unit → Option DBRow) :
    (a.orElse f).isSome = (a.isSome || (f ()).isSome) := by
  cases a <;> rfl

/-- C6: once a work of an author is soft-deleted, a rescan never inserts a
new row for a record matching it on isbn13, isbn, asin (truthy values), or
title: some row is always found by the hierarchical lookup — the tombstone
itself, or an earlier-priority row — so the insert branch is unreachable and
the table length is unchanged. -/
theorem C6_tombstone_no_insert (db : List DBRow) (aid : Nat) (b : Book) (T : DBRow)
    (hT : T ∈ db) (ha : T.author_id = aid) (hd : T.deleted = true)
    (hmatch : (truthy b.isbn13 = true ∧ b.isbn13 = T.isbn13) ∨
              (truthy b.isbn = true ∧ b.isbn = T.isbn) ∨
              (truthy b.asin = true ∧ b.asin = T.asin) ∨ b.title = T.title) :
    (applyBook db aid b).2.1 = false ∧ (applyBook db aid b).1.length = db.length := by
  have hd' := hd
  have hsome : (findExisting db aid b).isSome = true := by
    unfold findExisting
    rw [orElse_isSome, orElse_isSome, orElse_isSome]
    rcases hmatch with ⟨ht, hv⟩ | ⟨ht, hv⟩ | ⟨ht, hv⟩ | hv
    · have he : ((if truthy b.isbn13 then
          db.find? (fun r => r.author_id == aid && r.isbn13 == b.isbn13)
          else none)).isSome = true := by
        simp only [ht, if_true]
        exact List.find?_isSome.mpr ⟨T, hT, by simp [ha, hv]⟩
      simp [he]
    · have he : ((if truthy b.isbn then
          db.find? (fun r => r.author_id == aid && r.isbn == b.isbn)
          else none)).isSome = true := by
        simp only [ht, if_true]
        exact List.find?_isSome.mpr ⟨T, hT, by simp [ha, hv]⟩
      simp [he]
    · have he : ((if truthy b.asin then
          db.find? (fun r => r.author_id == aid && r.asin == b.asin)
          else none)).isSome = true := by
        simp only [ht, if_true]
        exact List.find?_isSome.mpr ⟨T, hT, by simp [ha, hv]⟩
      simp [he]
    · have he : (db.find? (fun r => r.author_id == aid && r.title == b.title)).isSome
          = true :=
        List.find?_isSome.mpr ⟨T, hT, by simp [ha, hv]⟩
      simp [he]
  obtain ⟨r, hr⟩ := Option.isSome_iff_exists.mp hsome
  constructor
  · unfold applyBook
    rw [hr]
    by_cases hdel : r.deleted <;> simp [hdel]
  · unfold applyBook
    rw [hr]
    by_cases hdel : r.deleted <;> simp [hdel]

/-- Witness for `C6_tombstone_no_insert`: a single tombstone row matched by
its isbn13 — the scan step neither inserts nor updates. -/
theorem C6_witness :
    (applyBook [{ id := 5, author_id := 3, title := "Gone", isbn13 := some "999", deleted := true }]
        3 { title := "Gone", isbn13 := some "999" }).2.1 = false ∧
    (applyBook [{ id := 5, author_id := 3, title := "Gone", isbn13 := some "999", deleted := true }]
        3 { title := "Gone", isbn13 := some "999" }).1.length
      = [({ id := 5, author_id := 3, title := "Gone", isbn13 := some "999", deleted := true } : DBRow)].length :=
  C6_tombstone_no_insert _ 3 { title := "Gone", isbn13 := some "999" }
    { id := 5, author_id := 3, title := "Gone", isbn13 := some "999", deleted := true }
    (by decide) rfl rfl (Or.inl ⟨rfl, rfl⟩)

/-! ## C8 — the ownership matcher's two strategies -/

/-- Following the claim's words (C8): "stripping ':', ',', '-'" — all three
characters deleted (the code instead replaces `-` with a space). -/
def specNormalize (l : List Char) : List Char :=
  replaceChar '-' [] (replaceChar ',' [] (replaceChar ':' [] l))

/-- Following the claim's words (C8): the word set after deleting the three
punctuation characters. -/
def specWordSet (l : List Char) : List String :=
  dedupFirst (pySplit (specNormalize l))

/-- Following the claim's words (C8): word-overlap ratio ≥ 0.75 over the
delete-all-three normalization. -/
def specOverlapMatch (book_title abs_title_raw : String) : Bool :=
  let title_words := specWordSet (stripWs (lowerStr book_title.toList))
  let abs_words := specWordSet (stripWs (lowerStr abs_title_raw.toList))
  title_words.length > 0
    && 4 * overlapCount title_words abs_words ≥ 3 * title_words.length

/-- Following the claim's words (C8): substring containment first, then the
claimed word-overlap ratio. -/
def specCandidateMatch (book_title abs_title_raw : String) : Bool :=
  absSubstrMatch book_title abs_title_raw || specOverlapMatch book_title abs_title_raw

/-- C8: the claimed normalization ("stripping ':', ',', '-'") disagrees with
the code, which replaces `-` with a space: for title "well-known" against
candidate "well known" the code's matcher matches (ratio 1.0) while the
claimed matcher does not (word sets \x7bwellknown\x7d vs \x7bwell, known\x7d,
ratio 0), so the claimed iff is false. -/
theorem C8_counterexample :
    absCandidateMatch "well-known" "well known" = true ∧
    specCandidateMatch "well-known" "well known" = false := by
  decide

theorem absScanItems_spec (t : String) (items : List AbsMeta) :
    (match absScanItems t items with
     | some r => r.1
     | none => false) = items.any (fun m => absCandidateMatch t (m.title.getD "")) := by
  induction items with
  | nil => rfl
  | cons m rest ih =>
    by_cases h1 : absSubstrMatch t (m.title.getD "") = true
    · simp [absScanItems, h1, absCandidateMatch]
    · by_cases h2 : absOverlapMatch t (m.title.getD "") = true
      · simp [absScanItems, h1, h2, absCandidateMatch]
      · simp only [Bool.not_eq_true] at h1 h2
        simp [absScanItems, h1, h2, absCandidateMatch, ih]

/-- C8 (amended): a configured matcher declares some candidate of the
library a match iff some candidate title passes substring containment
(tried first) or the word-overlap ratio ≥ 0.75 where ':' and ',' are
deleted and '-' is replaced by a space; "The Great Escape" vs
"Great Escape, The" fails the substring strategy but has overlap 3 of 3
title words — ratio 1.0 — and matches. -/
theorem C8_matcher_two_strategies :
    (∀ (items : List AbsMeta) (title : String),
      (check_audiobookshelf [] "http://abs" "tok" (.ok [.ok items]) title).1
        = items.any (fun m => absCandidateMatch title (m.title.getD ""))) ∧
    absSubstrMatch "The Great Escape" "Great Escape, The" = false ∧
    overlapCount (absWordSet (stripWs (lowerStr "The Great Escape".toList)))
        (absWordSet (stripWs (lowerStr "Great Escape, The".toList))) = 3 ∧
    (absWordSet (stripWs (lowerStr "The Great Escape".toList))).length = 3 ∧
    absCandidateMatch "The Great Escape" "Great Escape, The" = true := by
  refine ⟨?_, by decide, by decide, by decide, by decide⟩
  intro items title
  rw [← absScanItems_spec title items]
  have hempty : ¬("http://abs".isEmpty = true ∨ "tok".isEmpty = true) := by decide
  cases hm : absScanItems title items with
  | none =>
    simp [check_audiobookshelf, settingsGetOr, settingsFind, absScanLibs, hm, hempty]
  | some r =>
    simp [check_audiobookshelf, settingsGetOr, settingsFind, absScanLibs, hm, hempty]

/-! ## C9 — unified search ranking -/

theorem sortKeyGE_of_not_GT (a b : SearchResult) (h : sortKeyGT a b = false) :
    sortKeyGE b a = true := by
  simp only [sortKeyGT, sortKeyGE, Bool.or_eq_false_iff, Bool.or_eq_true,
    Bool.and_eq_false_iff, Bool.and_eq_true, decide_eq_true_eq, decide_eq_false_iff_not,
    beq_iff_eq, beq_eq_false_iff_ne, ne_eq] at h ⊢
  omega

theorem sortKeyGT_GE (a b : SearchResult) (h : sortKeyGT a b = true) :
    sortKeyGE a b = true := by
  simp only [sortKeyGT, sortKeyGE, Bool.or_eq_true, Bool.and_eq_true,
    decide_eq_true_eq, beq_iff_eq] at h ⊢
  omega

theorem sortKeyGE_trans (a b c : SearchResult) (h1 : sortKeyGE a b = true)
    (h2 : sortKeyGE b c = true) : sortKeyGE a c = true := by
  simp only [sortKeyGE, Bool.or_eq_true, Bool.and_eq_true, decide_eq_true_eq,
    beq_iff_eq] at h1 h2 ⊢
  omega

theorem mem_insDesc (z x : SearchResult) (l : List SearchResult) :
    z ∈ insDesc x l ↔ z = x ∨ z ∈ l := by
  induction l with
  | nil => simp [insDesc]
  | cons y ys ih =>
    by_cases h : sortKeyGT y x = true
    · simp only [insDesc, h, if_true, List.mem_cons, ih]
      tauto
    · simp only [Bool.not_eq_true] at h
      simp only [insDesc, h, Bool.false_eq_true, if_false, List.mem_cons]

theorem pairwise_insDesc (x : SearchResult) (l : List SearchResult)
    (h : l.Pairwise (fun a b => sortKeyGE a b = true)) :
    (insDesc x l).Pairwise (fun a b => sortKeyGE a b = true) := by
  induction l with
  | nil => simp [insDesc]
  | cons y ys ih =>
    rcases List.pairwise_cons.mp h with ⟨hy, hys⟩
    by_cases hq : sortKeyGT y x = true
    · rw [insDesc, if_pos hq, List.pairwise_cons]
      refine ⟨?_, ih hys⟩
      intro z hz
      rcases (mem_insDesc z x ys).mp hz with rfl | hz'
      · exact sortKeyGT_GE _ _ hq
      · exact hy z hz'
    · simp only [Bool.not_eq_true] at hq
      rw [insDesc, hq]
      simp only [Bool.false_eq_true, if_false]
      rw [List.pairwise_cons]
      refine ⟨?_, h⟩
      intro z hz
      rcases List.mem_cons.mp hz with rfl | hz'
      · exact sortKeyGE_of_not_GT _ _ hq
      · exact sortKeyGE_trans x y z (sortKeyGE_of_not_GT _ _ hq) (hy z hz')

theorem pairwise_pySortDesc (l : List SearchResult) :
    (pySortDesc l).Pairwise (fun a b => sortKeyGE a b = true) := by
  induction l with
  | nil => simp [pySortDesc]
  | cons a l ih => exact pairwise_insDesc a (pySortDesc l) ih

theorem perm_insDesc (x : SearchResult) (l : List SearchResult) :
    (insDesc x l).Perm (x :: l) := by
  induction l with
  | nil => exact List.Perm.refl _
  | cons y ys ih =>
    by_cases h : sortKeyGT y x = true
    · rw [insDesc, if_pos h]
      exact (ih.cons y).trans (List.Perm.swap x y ys)
    · simp only [Bool.not_eq_true] at h
      rw [insDesc, h]
      simp only [Bool.false_eq_true, if_false]
      exact List.Perm.refl _

theorem perm_pySortDesc (l : List SearchResult) : (pySortDesc l).Perm l := by
  induction l with
  | nil => exact List.Perm.refl _
  | cons a l ih => exact (perm_insDesc a (pySortDesc l)).trans (ih.cons a)

/-- C9: unified search returns a permutation of the concatenated adapter
results ordered descending by the `(seeders, size)` tuple (stable sort, so
this pins the output), every result parsed from the Prowlarr adapter carries
`seeders = 0` and type Usenet by construction, and on the claim's concrete
input the seeded torrent `(5, 50)` outranks the Usenet result `(0, 100)`. -/
theorem C9_unified_search_ranking :
    (∀ (settings : Settings) (envUrl envKey : String)
        (presp : Except Unit (List ProwlarrItem)) (jresp : Except Unit (List JackettItem)),
      (unified_search settings envUrl envKey presp jresp).Perm
          (search_prowlarr_api settings envUrl envKey presp
            ++ search_jackett_api settings jresp)
        ∧ (unified_search settings envUrl envKey presp jresp).Pairwise
            (fun a b => sortKeyGE a b = true)) ∧
    (∀ (settings : Settings) (envUrl envKey : String)
        (resp : Except Unit (List ProwlarrItem)),
      (search_prowlarr_api settings envUrl envKey resp).all
          (fun r => r.seeders == 0 && r.rtype == "Usenet") = true) ∧
    (unified_search [("prowlarr_url", "u"), ("prowlarr_api_key", "k"),
          ("jackett_url", "u"), ("jackett_api_key", "k")] "" ""
        (.ok [{ title := some "n1", size := some 100 }])
        (.ok [{ jTitle := some "t1", jSize := some 50, jSeeders := some 5 }])).map
        (fun r => (r.rtype, r.seeders, r.size))
      = [("Torrent", 5, 50), ("Usenet", 0, 100)] := by
  refine ⟨?_, ?_, by decide⟩
  · intro settings envUrl envKey presp jresp
    exact ⟨perm_pySortDesc _, pairwise_pySortDesc _⟩
  · intro settings envUrl envKey resp
    by_cases hc : ((settingsGetOr settings "prowlarr_url" envUrl).isEmpty
        || (settingsGetOr settings "prowlarr_api_key" envKey).isEmpty) = true
    · simp [search_prowlarr_api, hc]
    · cases resp with
      | error e => simp [search_prowlarr_api, hc]
      | ok items =>
        simp only [search_prowlarr_api]
        rw [if_neg hc]
        simp only [List.all_eq_true, List.mem_map]
        rintro r ⟨i, hi, rfl⟩
        rfl

/-! ## C10 — torrent client dispatch -/

/-- C10: for a non-Usenet dispatch, an absent `torrent_client_type` setting
selects the qBittorrent backend, and a value outside the four known client
names makes the dispatcher return false for every possible behaviour of the
five backends — i.e. without invoking any of them. -/
theorem C10_dispatcher_default_and_unknown
    (sab qb tcl del rtor : String → String → Bool) (settings : Settings)
    (download_url title result_type : String) :
    (settingsFind settings "torrent_client_type" = none →
      result_type ≠ "Usenet" →
      send_to_download_client sab qb tcl del rtor settings download_url title result_type
        = qb download_url title) ∧
    (∀ ct, settingsFind settings "torrent_client_type" = some ct →
      ct ∉ (["qbittorrent", "transmission", "deluge", "rtorrent"] : List String) →
      result_type ≠ "Usenet" →
      send_to_download_client sab qb tcl del rtor settings download_url title result_type
        = false) := by
  constructor
  · intro hnone hty
    simp [send_to_download_client, hty, settingsGetD, hnone]
  · intro ct hsome hmem hty
    simp only [List.mem_cons, List.mem_singleton, List.not_mem_nil, or_false, not_or] at hmem
    obtain ⟨n1, n2, n3, n4⟩ := hmem
    simp [send_to_download_client, hty, settingsGetD, hsome, n1, n2, n3, n4]

/-- Witness for `C10_dispatcher_default_and_unknown`: with no
`torrent_client_type` stored, a Torrent dispatch runs the qBittorrent
behaviour; with `torrent_client_type = "foo"`, it returns false. -/
theorem C10_witness :
    send_to_download_client (fun _ _ => false) (fun _ _ => true) (fun _ _ => false)
        (fun _ _ => false) (fun _ _ => false) [] "u" "t" "Torrent" = true ∧
    send_to_download_client (fun _ _ => true) (fun _ _ => true) (fun _ _ => true)
        (fun _ _ => true) (fun _ _ => true) [("torrent_client_type", "foo")]
        "u" "t" "Torrent" = false :=
  ⟨(C10_dispatcher_default_and_unknown (fun _ _ => false) (fun _ _ => true)
      (fun _ _ => false) (fun _ _ => false) (fun _ _ => false) [] "u" "t" "Torrent").1
      rfl (by decide),
   (C10_dispatcher_default_and_unknown (fun _ _ => true) (fun _ _ => true)
      (fun _ _ => true) (fun _ _ => true) (fun _ _ => true)
      [("torrent_client_type", "foo")] "u" "t" "Torrent").2
      "foo" rfl (by decide) (by decide)⟩

end BookScout
